import Mathlib

/-!
Verification development for `notebooks/07_generate_report.py` of the
CVS_Heath_Project repository.

The script enriches a county-level pandas DataFrame with derived metrics and
renders a fixed sequence of PDF pages.  We shallowly embed the DataFrame as an
association list of numeric columns (values in `ℚ`) together with string
columns, embed each enrichment step and each page-drawing step as a Lean
function (fallible steps return `Except`), and embed the `__main__` entry
point over a small model of the file system.  Numeric values are modelled as
exact rationals; the one place where IEEE special values matter (the
`replace([np.inf, -np.inf], 0)` on `clinics_per_100k`, line 47) is modelled
separately with an extended value type `FVal` carrying infinities and NaN.
-/

namespace Report

/-- Lookup in an association list of named columns (pandas `df[name]`;
`none` models a `KeyError`). -/
def lookupCol {α : Type} : List (String × α) → String → Option α
  | [], _ => none
  | (k, v) :: rest, c => if k = c then some v else lookupCol rest c

/-- Column assignment `df[name] = v`: replaces the column in place if the name
is present, otherwise appends a new column at the end (pandas semantics). -/
def setPairs {α : Type} : List (String × α) → String → α → List (String × α)
  | [], c, v => [(c, v)]
  | (k, w) :: rest, c, v =>
      if k = c then (c, v) :: rest else (k, w) :: setPairs rest c v

/-- A pandas DataFrame, shallowly embedded: a row count, numeric columns
(values as exact rationals) and string columns (county/state names and the
categorical `svi_quartile`). -/
structure DataFrame where
  nrows : Nat
  numCols : List (String × List ℚ)
  strCols : List (String × List String)
deriving Repr, DecidableEq

def DataFrame.getCol (df : DataFrame) (c : String) : Option (List ℚ) :=
  lookupCol df.numCols c

def DataFrame.hasCol (df : DataFrame) (c : String) : Bool :=
  (df.getCol c).isSome

def DataFrame.setCol (df : DataFrame) (c : String) (v : List ℚ) : DataFrame :=
  { df with numCols := setPairs df.numCols c v }

def DataFrame.getStr (df : DataFrame) (c : String) : Option (List String) :=
  lookupCol df.strCols c

def DataFrame.hasStr (df : DataFrame) (c : String) : Bool :=
  (df.getStr c).isSome

def DataFrame.setStr (df : DataFrame) (c : String) (v : List String) : DataFrame :=
  { df with strCols := setPairs df.strCols c v }

/-! ### Metric enrichment (lines 34-56) -/

/-- Line 36: the candidate inputs of `health_burden_score`. -/
def healthVars : List String :=
  ["stroke", "physical_inactivity", "self_care_disability", "social_isolation"]

/-- Row-wise mean `df[available_vars].mean(axis=1)` of the given columns. -/
def rowwiseMean (n : Nat) (cols : List (List ℚ)) : List ℚ :=
  (List.range n).map (fun i => (cols.map (fun col => col.getD i 0)).sum / cols.length)

/-- Lines 35-39: derive `health_burden_score` as the row-wise mean of the
available health variables, when the column is absent and at least one of the
four variables is present. -/
def ensureHealthBurden (df : DataFrame) : DataFrame :=
  if df.hasCol "health_burden_score" then df
  else if (healthVars.filter (fun v => df.hasCol v)).isEmpty then df
  else
    df.setCol "health_burden_score"
      (rowwiseMean df.nrows
        ((healthVars.filter (fun v => df.hasCol v)).map (fun v => (df.getCol v).getD [])))

/-- Line 42's warning text. -/
def popWarning : String :=
  "Warning: Population data not found. Some metrics may be unavailable."

/-- Lines 41-43: when `population` is absent, print a warning and fill the
column with the default value 100000 for every row.  Never fails. -/
def ensurePopulation (df : DataFrame) : DataFrame × List String :=
  if df.hasCol "population" then (df, [])
  else (df.setCol "population" (List.replicate df.nrows 100000), [popWarning])

/-- Lines 45-47: derive `clinics_per_100k = clinic_count / population * 100000`
when the column is absent and `population` is present.  `df['clinic_count']`
raises a `KeyError` when that column is missing.  In this rational-valued
model division by zero yields 0, which coincides with the script's replacement
of the resulting infinities by 0 (the IEEE-faithful refinement of this line is
`deriveClinicsF` below). -/
def ensureClinicsPer100k (df : DataFrame) : Except String DataFrame :=
  if !df.hasCol "clinics_per_100k" && df.hasCol "population" then
    match df.getCol "clinic_count", df.getCol "population" with
    | some cc, some pop =>
        .ok (df.setCol "clinics_per_100k"
              (List.zipWith (fun c p => c / p * 100000) cc pop))
    | _, _ => .error "KeyError: clinic_count"
  else .ok df

/-- Column minimum `series.min()` (0 on an empty column, where pandas yields NaN). -/
def colMin : List ℚ → ℚ
  | [] => 0
  | x :: xs => xs.foldl min x

/-- Column maximum `series.max()` (0 on an empty column, where pandas yields NaN). -/
def colMax : List ℚ → ℚ
  | [] => 0
  | x :: xs => xs.foldl max x

/-- Lines 49-53: derive `health_need` as the min-max normalisation of
`health_burden_score`, when the column is absent and `health_burden_score` is
present.  The division by `max - min` is unguarded. -/
def ensureHealthNeed (df : DataFrame) : DataFrame :=
  if !df.hasCol "health_need" && df.hasCol "health_burden_score" then
    let h := (df.getCol "health_burden_score").getD []
    df.setCol "health_need" (h.map (fun x => (x - colMin h) / (colMax h - colMin h)))
  else df

/-- Lines 55-56: derive `pop_adjusted_gap = health_need * population` when the
column is absent and `health_need` is present (`df['population']` would raise
a `KeyError` were it missing at this point). -/
def ensurePopGap (df : DataFrame) : Except String DataFrame :=
  if !df.hasCol "pop_adjusted_gap" && df.hasCol "health_need" then
    match df.getCol "health_need", df.getCol "population" with
    | some hn, some pop =>
        .ok (df.setCol "pop_adjusted_gap" (List.zipWith (fun h p => h * p) hn pop))
    | _, _ => .error "KeyError: population"
  else .ok df

/-- Lines 34-56 in sequence: the metric-enrichment prologue of
`create_pdf_report`, returning the enriched frame and the printed warnings. -/
def enrichMetrics (df : DataFrame) : Except String (DataFrame × List String) := do
  let pw := ensurePopulation (ensureHealthBurden df)
  let df3 ← ensureClinicsPer100k pw.1
  let df5 ← ensurePopGap (ensureHealthNeed df3)
  return (df5, pw.2)

/-! ### Page renderer (lines 59-293) -/

/-- A page of the output PDF, identified by the section of the script that
draws it. -/
inductive Page where
  | cover
  | execSummary
  | keyStats
  | boxplots
  | rankings
  | stateSummary
  | recommendations
deriving Repr, DecidableEq

/-- True when every named numeric column is present; a page-drawing step that
accesses these columns raises a `KeyError` otherwise. -/
def hasCols (df : DataFrame) (names : List String) : Bool :=
  names.all df.hasCol

/-- Linear-interpolation quantile of an already sorted list (the `numpy`
method used by `pd.qcut`). -/
def quantileOfSorted (s : List ℚ) (p : ℚ) : ℚ :=
  if s.length = 0 then 0
  else
    let pos : ℚ := p * ((s.length : ℚ) - 1)
    let i : Nat := pos.floor.toNat
    s.getD i 0 + (pos - (i : ℚ)) * (s.getD (i + 1) (s.getD i 0) - s.getD i 0)

/-- The quartile labels of line 167-168. -/
def quartileLabels : List String :=
  ["Low SVI (Q1)", "Medium-Low SVI (Q2)", "Medium-High SVI (Q3)", "High SVI (Q4)"]

/-- The bin of `x` among the quartile edges `e0 < e1 < e2 < e3 < e4`
(right-closed bins, as `pd.cut` uses). -/
def quartileOf (edges : List ℚ) (x : ℚ) : String :=
  if x ≤ edges.getD 1 0 then quartileLabels.getD 0 ""
  else if x ≤ edges.getD 2 0 then quartileLabels.getD 1 ""
  else if x ≤ edges.getD 3 0 then quartileLabels.getD 2 ""
  else quartileLabels.getD 3 ""

/-- Whether a list is strictly ascending (adjacent bin edges all distinct). -/
def strictAscend : List ℚ → Bool
  | [] => true
  | [_] => true
  | a :: b :: t => decide (a < b) && strictAscend (b :: t)

/-- Model of `pd.qcut(xs, q=4, labels=...)`: quartile edges by linear interpolation;
raises `ValueError` when the edges are not distinct (`duplicates='raise'` is
the default). -/
def pdQcut4 (xs : List ℚ) : Except String (List String) :=
  let s := xs.insertionSort (· ≤ ·)
  let edges := [quantileOfSorted s 0, quantileOfSorted s (1/4), quantileOfSorted s (1/2),
                quantileOfSorted s (3/4), quantileOfSorted s 1]
  if strictAscend edges then .ok (xs.map (quartileOf edges))
  else .error "ValueError: Bin edges must be unique"

/-- Lines 62-72: the cover page uses only `len(df)`; it cannot fail. -/
def coverPage (_df : DataFrame) : List Page :=
  [.cover]

/-- Lines 74-112: the executive summary reads `clinic_count`, `svi_overall`,
`svi_socioeconomic` and `health_burden_score`. -/
def execSummaryPage (df : DataFrame) : Except String (List Page) :=
  if hasCols df ["clinic_count", "svi_overall", "svi_socioeconomic", "health_burden_score"] then
    .ok [.execSummary]
  else .error "KeyError"

/-- Lines 114-160: the key-statistics page reads `clinic_count`,
`health_burden_score` and `svi_overall`. -/
def keyStatsPage (df : DataFrame) : Except String (List Page) :=
  if hasCols df ["clinic_count", "health_burden_score", "svi_overall"] then
    .ok [.keyStats]
  else .error "KeyError"

/-- Lines 162-187: the boxplot page assigns `df['svi_quartile'] =
pd.qcut(df['svi_overall'], ...)` (mutating the frame) and reads
`clinic_count` and `health_burden_score`. -/
def boxplotsPage (df : DataFrame) : Except String (DataFrame × List Page) :=
  if hasCols df ["svi_overall", "clinic_count", "health_burden_score"] then
    match pdQcut4 ((df.getCol "svi_overall").getD []) with
    | .error e => .error e
    | .ok q => .ok (df.setStr "svi_quartile" q, [.boxplots])
  else .error "KeyError"

/-- A row of the top-underserved table (line 191-193's column selection). -/
structure URow where
  county_full : String
  state_full : String
  pop_adjusted_gap : ℚ
  health_burden_score : ℚ
  clinic_count : ℚ
  population : ℚ
deriving Repr, DecidableEq

/-- Row indices sorted by `key` in descending order (stable). -/
def sortIdxDesc (key : List ℚ) : List Nat :=
  (List.range key.length).insertionSort (fun i j => key.getD j 0 ≤ key.getD i 0)

/-- Model of `df.nlargest(k, col)`: the indices of the `k` rows with the largest key. -/
def nlargestIdx (k : Nat) (key : List ℚ) : List Nat :=
  (sortIdxDesc key).take k

/-- Lines 190-193: `df.nlargest(20, 'pop_adjusted_gap')` restricted to the
displayed columns. -/
def topUnderserved (df : DataFrame) : List URow :=
  let gap := (df.getCol "pop_adjusted_gap").getD []
  (nlargestIdx 20 gap).map (fun i =>
    { county_full := ((df.getStr "county_full").getD []).getD i ""
      state_full := ((df.getStr "state_full").getD []).getD i ""
      pop_adjusted_gap := gap.getD i 0
      health_burden_score := ((df.getCol "health_burden_score").getD []).getD i 0
      clinic_count := ((df.getCol "clinic_count").getD []).getD i 0
      population := ((df.getCol "population").getD []).getD i 0 })

/-- Lines 189-215: the rankings page is drawn only when `pop_adjusted_gap` is
present; it then reads the listed columns and draws the top-20 bar chart. -/
def rankingsPage (df : DataFrame) : Except String (List Page × Option (List URow)) :=
  if df.hasCol "pop_adjusted_gap" then
    if hasCols df ["pop_adjusted_gap", "health_burden_score", "clinic_count", "population"]
        && df.hasStr "county_full" && df.hasStr "state_full" then
      .ok ([.rankings], some (topUnderserved df))
    else .error "KeyError"
  else .ok ([], none)

/-- A row of `state_stats` (lines 218-226). -/
structure SRow where
  state_full : String
  clinic_count : ℚ
  population : ℚ
  health_burden_score : ℚ
  svi_overall : ℚ
  clinics_per_100k : ℚ
deriving Repr, DecidableEq

/-- Group sum `df.groupby(state)[vals].sum()` for one group key. -/
def groupSum (states : List String) (vals : List ℚ) (s : String) : ℚ :=
  ((List.zip states vals).filter (fun p => p.1 = s)).map Prod.snd |>.sum

/-- Group mean `df.groupby(state)[vals].mean()` for one group key. -/
def groupMean (states : List String) (vals : List ℚ) (s : String) : ℚ :=
  groupSum states vals s / ((states.filter (fun t => t = s)).length : ℚ)

/-- Lines 218-226: `state_stats` with the derived state-level
`clinics_per_100k = sum(clinic_count) / sum(population) * 100000` (computed
without any infinity replacement; see `stateClinicsF` for the IEEE view). -/
def stateStats (df : DataFrame) : List SRow :=
  let states := (df.getStr "state_full").getD []
  let cc := (df.getCol "clinic_count").getD []
  let pop := (df.getCol "population").getD []
  let hbs := (df.getCol "health_burden_score").getD []
  let svi := (df.getCol "svi_overall").getD []
  states.dedup.map (fun s =>
    { state_full := s
      clinic_count := groupSum states cc s
      population := groupSum states pop s
      health_burden_score := groupMean states hbs s
      svi_overall := groupMean states svi s
      clinics_per_100k := groupSum states cc s / groupSum states pop s * 100000 })

/-- Lines 227: `state_stats.sort_values('clinics_per_100k', ascending=False).head(15)`. -/
def topStates (rows : List SRow) : List SRow :=
  (rows.insertionSort (fun a b => b.clinics_per_100k ≤ a.clinics_per_100k)).take 15

/-- Lines 217-244: the state-level summary page; the `groupby`/`agg` reads
`state_full`, `clinic_count`, `population`, `health_burden_score` and
`svi_overall`, and the guard `'population' in state_stats.columns` (line 225)
is always true because `population` is one of the aggregated columns. -/
def stateSummaryPage (df : DataFrame) : Except String (List Page × List SRow) :=
  if hasCols df ["clinic_count", "population", "health_burden_score", "svi_overall"]
      && df.hasStr "state_full" then
    .ok ([.stateSummary], topStates (stateStats df))
  else .error "KeyError"

/-- Lines 246-290: the recommendations page is static text; it cannot fail. -/
def recommendationsPage (_df : DataFrame) : List Page :=
  [.recommendations]

/-- The result of a successful `create_pdf_report` call: the final state of
the caller's frame (the Python function mutates `df` in place), the pages of
the written PDF in order, the warnings printed, the two ranked tables, and
the returned value. -/
structure ReportResult where
  df : DataFrame
  pages : List Page
  warnings : List String
  underserved : Option (List URow)
  states : List SRow
  returned : String
deriving Repr, DecidableEq

/-- Lines 22-293: `create_pdf_report(df, output_path)`. -/
def create_pdf_report (df : DataFrame) (output_path : String) :
    Except String ReportResult :=
  match enrichMetrics df with
  | .error e => .error e
  | .ok (dfE, w) =>
    match execSummaryPage dfE with
    | .error e => .error e
    | .ok p2 =>
      match keyStatsPage dfE with
      | .error e => .error e
      | .ok p3 =>
        match boxplotsPage dfE with
        | .error e => .error e
        | .ok (dfB, p4) =>
          match rankingsPage dfB with
          | .error e => .error e
          | .ok (p5, tbl) =>
            match stateSummaryPage dfB with
            | .error e => .error e
            | .ok (p6, st) =>
              .ok { df := dfB
                    pages := coverPage dfE ++ p2 ++ p3 ++ p4 ++ p5 ++ p6 ++
                             recommendationsPage dfB
                    warnings := w
                    underserved := tbl
                    states := st
                    returned := output_path }

/-! ### Entry point (lines 296-311) -/

/-- A raw CSV cell as produced by `pd.read_csv`: already numeric, or text. -/
inductive Cell where
  | num (q : ℚ)
  | str (s : String)
deriving Repr, DecidableEq

/-- A raw frame straight out of `pd.read_csv`, before type coercion. -/
structure RawFrame where
  cols : List (String × List Cell)
deriving Repr, DecidableEq

/-- Numeric parsing of a text cell: an optional sign, digits, and an optional
fractional part (the fragment of numeric-string syntax we model). -/
def parseNum (s : String) : Option ℚ :=
  let core (t : List Char) : Option ℚ :=
    match t.span (·.isDigit) with
    | (intPart, rest) =>
      if intPart.isEmpty then none
      else
        let iv : ℚ := (String.toNat! ⟨intPart⟩ : ℚ)
        match rest with
        | [] => some iv
        | '.' :: frac =>
            if frac.all (·.isDigit) && !frac.isEmpty then
              some (iv + (String.toNat! ⟨frac⟩ : ℚ) / ((10 : ℚ) ^ frac.length))
            else none
        | _ => none
  match s.toList with
  | '-' :: t => (core t).map (fun q => -q)
  | t => core t

/-- The numeric value of a cell, when it has one. -/
def cellNum : Cell → Option ℚ
  | .num q => some q
  | .str s => parseNum s

/-- Model of `pd.to_numeric(col, errors='ignore')`: when every cell parses, the column
becomes numeric; otherwise it is returned unchanged (with `errors='ignore'`
unparseable input is returned as-is rather than raising). -/
def pdToNumericIgnore (col : List Cell) : Except String (List Cell) :=
  if (col.map cellNum).all Option.isSome then
    .ok (col.map (fun c => Cell.num ((cellNum c).getD 0)))
  else
    .ok col

/-- Lines 302-306: `try: df[col] = pd.to_numeric(df[col], errors='ignore')
except: pass` — the `try`/`except` around one column's coercion: an exception
from the coercion function `f` is swallowed and the column left unchanged. -/
def coerceColumn (f : List Cell → Except String (List Cell)) (col : List Cell) :
    List Cell :=
  match f col with
  | .ok v => v
  | .error _ => col

/-- Lines 302-306 over the whole frame. -/
def coerceColumns (rf : RawFrame) : RawFrame :=
  { cols := rf.cols.map (fun p => (p.1, coerceColumn pdToNumericIgnore p.2)) }

/-- Typing of the coerced frame: a column whose cells are all numeric has a
numeric dtype; any other column keeps object dtype (its string values). -/
def interpretFrame (rf : RawFrame) : DataFrame :=
  { nrows := ((rf.cols.map (fun p => p.2.length)).max?).getD 0
    numCols := (rf.cols.filter (fun p => p.2.all (fun c => (cellNum c).isSome))).map
      (fun p => (p.1, p.2.map (fun c => (cellNum c).getD 0)))
    strCols := (rf.cols.filter (fun p => !p.2.all (fun c => (cellNum c).isSome))).map
      (fun p => (p.1, p.2.map (fun c => match c with | .num q => toString q | .str s => s))) }

/-- A file of the modelled file system. -/
inductive MFile where
  | csv (rf : RawFrame)
  | pdf (pages : List Page)
deriving Repr, DecidableEq

/-- The modelled file system: an association list from path to file. -/
def FS : Type := List (String × MFile)

instance : DecidableEq FS := inferInstanceAs (DecidableEq (List (String × MFile)))

/-- An observable file-system access of the script. -/
inductive Event where
  | readCSV (path : String)
  | writePDF (path : String)
deriving Repr, DecidableEq

/-- Line 298: the hard-coded input path. -/
def data_path : String :=
  "C:\\Users\\14122\\OneDrive\\Desktop\\cvs_heath_project\\data\\processed\\CVS_FINAL_DATASET.csv"

/-- Line 309: the hard-coded output path. -/
def output_file : String :=
  "C:\\Users\\14122\\OneDrive\\Desktop\\cvs_heath_project\\CVS_Health_Analysis_Report.pdf"

/-- Lines 296-311: the `__main__` block.  Reads the CSV at `data_path`,
coerces each column to numeric where possible, invokes `create_pdf_report`,
which writes the PDF to `output_file`; returns the final file system and the
trace of file accesses. -/
def runMain (fs : FS) : Except String FS × List Event :=
  match lookupCol fs data_path with
  | none => (.error "FileNotFoundError", [.readCSV data_path])
  | some (MFile.pdf _) => (.error "ParserError", [.readCSV data_path])
  | some (MFile.csv rf) =>
    let df := interpretFrame (coerceColumns rf)
    match create_pdf_report df output_file with
    | .error e => (.error e, [.readCSV data_path])
    | .ok r =>
        (.ok (setPairs fs r.returned (MFile.pdf r.pages)),
         [.readCSV data_path, .writePDF r.returned])

/-! ### IEEE view of the `clinics_per_100k` divisions (lines 45-47, 225-226)

The main model uses exact rationals, whose division by zero returns 0.  The
county-level derivation of `clinics_per_100k` divides floats, where division
by zero produces `±inf` (or NaN for `0/0`), and then replaces `±inf` by 0.
`FVal` refines the value type with those special values. -/

/-- A float value: finite, an infinity, or NaN. -/
inductive FVal where
  | fin (q : ℚ)
  | inf
  | ninf
  | nan
deriving Repr, DecidableEq

def FVal.isFinite : FVal → Bool
  | .fin _ => true
  | _ => false

/-- IEEE division on `FVal` (the cases arising from finite CSV data and the
divisions the script performs). -/
def FVal.div : FVal → FVal → FVal
  | .fin a, .fin b =>
      if b ≠ 0 then .fin (a / b)
      else if a > 0 then .inf else if a < 0 then .ninf else .nan
  | .inf, .fin b => if b < 0 then .ninf else .inf
  | .ninf, .fin b => if b < 0 then .inf else .ninf
  | .fin _, .inf => .fin 0
  | .fin _, .ninf => .fin 0
  | _, _ => .nan

/-- IEEE multiplication by the positive finite constant 100000. -/
def FVal.mul100k : FVal → FVal
  | .fin a => .fin (a * 100000)
  | .inf => .inf
  | .ninf => .ninf
  | .nan => .nan

/-- IEEE addition (for the state-level sums). -/
def FVal.add : FVal → FVal → FVal
  | .fin a, .fin b => .fin (a + b)
  | .inf, .ninf => .nan
  | .ninf, .inf => .nan
  | .inf, _ => .inf
  | _, .inf => .inf
  | .ninf, _ => .ninf
  | _, .ninf => .ninf
  | .nan, _ => .nan
  | _, .nan => .nan

def FVal.sum (l : List FVal) : FVal :=
  l.foldl FVal.add (.fin 0)

/-- Line 47's replacement: `series.replace([np.inf, -np.inf], 0)`.  NaN is not
among the replaced values. -/
def replaceInf (l : List FVal) : List FVal :=
  l.map (fun v => if v = FVal.inf ∨ v = FVal.ninf then FVal.fin 0 else v)

/-- Lines 46-47 on float values: `(clinic_count / population) * 100000`
followed by the infinity replacement. -/
def deriveClinicsF (cc pop : List FVal) : List FVal :=
  replaceInf (List.zipWith (fun c p => (FVal.div c p).mul100k) cc pop)

/-- Line 226 on float values: the state-level
`clinic_count.sum() / population.sum() * 100000`, with no replacement. -/
def stateClinicsF (cc pop : List FVal) : FVal :=
  (FVal.div (FVal.sum cc) (FVal.sum pop)).mul100k

/-! ### Concrete example frames (used to witness the theorems below) -/

/-- A small well-formed county frame. -/
def exDF : DataFrame :=
  { nrows := 5
    numCols := [("clinic_count", [0,1,2,3,4]),
                ("svi_overall", [1/10, 2/10, 3/10, 4/10, 1/2]),
                ("svi_socioeconomic", [1/10,1/10,2/10,2/10,3/10]),
                ("stroke", [1,2,3,4,5]),
                ("population", [1000,2000,3000,4000,5000])]
    strCols := [("county_full", ["A","B","C","D","E"]),
                ("state_full", ["X","X","Y","Y","Z"])] }

/-- The frame `exDF` after metric enrichment. -/
def exEnriched : DataFrame :=
  { nrows := 5
    numCols := [("clinic_count", [0,1,2,3,4]),
                ("svi_overall", [1/10, 2/10, 3/10, 4/10, 1/2]),
                ("svi_socioeconomic", [1/10,1/10,2/10,2/10,3/10]),
                ("stroke", [1,2,3,4,5]),
                ("population", [1000,2000,3000,4000,5000]),
                ("health_burden_score", [1,2,3,4,5]),
                ("clinics_per_100k", [0, 50, 200/3, 75, 80]),
                ("health_need", [0, 1/4, 1/2, 3/4, 1]),
                ("pop_adjusted_gap", [0, 500, 1500, 3000, 5000])]
    strCols := [("county_full", ["A","B","C","D","E"]),
                ("state_full", ["X","X","Y","Y","Z"])] }

/-- The frame `exEnriched` after the boxplot page assigns `svi_quartile`. -/
def exFinalDF : DataFrame :=
  { exEnriched with
    strCols := [("county_full", ["A","B","C","D","E"]),
                ("state_full", ["X","X","Y","Y","Z"]),
                ("svi_quartile", ["Low SVI (Q1)", "Low SVI (Q1)", "Medium-Low SVI (Q2)",
                                  "Medium-High SVI (Q3)", "High SVI (Q4)"])] }

def allPages : List Page :=
  [.cover, .execSummary, .keyStats, .boxplots, .rankings, .stateSummary, .recommendations]

/-- The report produced from `exDF`. -/
def exReport : ReportResult :=
  { df := exFinalDF
    pages := allPages
    warnings := []
    underserved := some
      [{ county_full := "E", state_full := "Z", pop_adjusted_gap := 5000,
         health_burden_score := 5, clinic_count := 4, population := 5000 },
       { county_full := "D", state_full := "Y", pop_adjusted_gap := 3000,
         health_burden_score := 4, clinic_count := 3, population := 4000 },
       { county_full := "C", state_full := "Y", pop_adjusted_gap := 1500,
         health_burden_score := 3, clinic_count := 2, population := 3000 },
       { county_full := "B", state_full := "X", pop_adjusted_gap := 500,
         health_burden_score := 2, clinic_count := 1, population := 2000 },
       { county_full := "A", state_full := "X", pop_adjusted_gap := 0,
         health_burden_score := 1, clinic_count := 0, population := 1000 }]
    states :=
      [{ state_full := "Z", clinic_count := 4, population := 5000,
         health_burden_score := 5, svi_overall := 1/2, clinics_per_100k := 80 },
       { state_full := "Y", clinic_count := 5, population := 7000,
         health_burden_score := 7/2, svi_overall := 7/20, clinics_per_100k := 500/7 },
       { state_full := "X", clinic_count := 1, population := 3000,
         health_burden_score := 3/2, svi_overall := 3/20, clinics_per_100k := 100/3 }]
    returned := "out.pdf" }

/-- A frame with no `population` column. -/
def exDFNoPop : DataFrame :=
  { nrows := 2
    numCols := [("clinic_count", [1,0]),
                ("svi_overall", [1/10, 2/10]),
                ("svi_socioeconomic", [1/10, 1/5]),
                ("stroke", [2,4])]
    strCols := [("county_full", ["A","B"]),
                ("state_full", ["X","Y"])] }

/-- The report produced from `exDFNoPop`: the default population 100000 was
substituted and the single warning printed. -/
def exReportNoPop : ReportResult :=
  { df := { nrows := 2
            numCols := [("clinic_count", [1,0]),
                        ("svi_overall", [1/10, 1/5]),
                        ("svi_socioeconomic", [1/10, 1/5]),
                        ("stroke", [2,4]),
                        ("health_burden_score", [2,4]),
                        ("population", [100000, 100000]),
                        ("clinics_per_100k", [1, 0]),
                        ("health_need", [0, 1]),
                        ("pop_adjusted_gap", [0, 100000])]
            strCols := [("county_full", ["A","B"]),
                        ("state_full", ["X","Y"]),
                        ("svi_quartile", ["Low SVI (Q1)", "High SVI (Q4)"])] }
    pages := allPages
    warnings := [popWarning]
    underserved := some
      [{ county_full := "B", state_full := "Y", pop_adjusted_gap := 100000,
         health_burden_score := 4, clinic_count := 0, population := 100000 },
       { county_full := "A", state_full := "X", pop_adjusted_gap := 0,
         health_burden_score := 2, clinic_count := 1, population := 100000 }]
    states :=
      [{ state_full := "X", clinic_count := 1, population := 100000,
         health_burden_score := 2, svi_overall := 1/10, clinics_per_100k := 1 },
       { state_full := "Y", clinic_count := 0, population := 100000,
         health_burden_score := 4, svi_overall := 1/5, clinics_per_100k := 0 }]
    returned := "out.pdf" }

/-- A frame on which every `health_burden_score` entry is the same, so the
`health_need` normalisation divides by zero. -/
def exDFConst : DataFrame :=
  { nrows := 2
    numCols := [("clinic_count", [1,2]),
                ("population", [100,200]),
                ("health_burden_score", [3,3])]
    strCols := [] }

/-- The frame `exDFConst` after metric enrichment (`health_need` is `0/0 = 0` in the
rational model, where IEEE floats would give NaN). -/
def exConstEnriched : DataFrame :=
  { nrows := 2
    numCols := [("clinic_count", [1, 2]), ("population", [100, 200]),
                ("health_burden_score", [3, 3]), ("clinics_per_100k", [1000, 1000]),
                ("health_need", [0, 0]), ("pop_adjusted_gap", [0, 0])]
    strCols := [] }

/-- A raw CSV image of `exDF` (the `clinic_count` cells arrive as text and are
coerced to numbers by the entry point). -/
def exRaw : RawFrame :=
  { cols := [("clinic_count", [.str "0", .str "1", .str "2", .str "3", .str "4"]),
             ("svi_overall", [.num (1/10), .num (2/10), .num (3/10), .num (4/10), .num (1/2)]),
             ("svi_socioeconomic", [.num (1/10), .num (1/10), .num (2/10), .num (2/10), .num (3/10)]),
             ("stroke", [.num 1, .num 2, .num 3, .num 4, .num 5]),
             ("population", [.num 1000, .num 2000, .num 3000, .num 4000, .num 5000]),
             ("county_full", [.str "A", .str "B", .str "C", .str "D", .str "E"]),
             ("state_full", [.str "X", .str "X", .str "Y", .str "Y", .str "Z"])] }

/-- A file system holding the input CSV at the hard-coded path. -/
def exFS : FS := [(data_path, MFile.csv exRaw)]

/-- The file system after a successful run: the PDF has been added at the
hard-coded output path. -/
def exFSFinal : FS :=
  [(data_path, MFile.csv exRaw), (output_file, MFile.pdf allPages)]

/-! ### Helper lemmas: association lists and frame updates -/

theorem lookupCol_setPairs_self {α : Type} (l : List (String × α)) (c : String) (v : α) :
    lookupCol (setPairs l c v) c = some v := by
  induction l with
  | nil => simp [setPairs, lookupCol]
  | cons p rest ih =>
      obtain ⟨k, w⟩ := p
      by_cases h : k = c
      · simp [setPairs, lookupCol, h]
      · simp [setPairs, lookupCol, h, ih]

theorem lookupCol_setPairs_ne {α : Type} (l : List (String × α)) {c c' : String}
    (h : c' ≠ c) (v : α) : lookupCol (setPairs l c v) c' = lookupCol l c' := by
  induction l with
  | nil => simp [setPairs, lookupCol, Ne.symm h]
  | cons p rest ih =>
      obtain ⟨k, w⟩ := p
      by_cases hk : k = c
      · subst hk
        simp [setPairs, lookupCol, Ne.symm h]
      · by_cases hk' : k = c'
        · simp [setPairs, lookupCol, hk, hk', h]
        · simp [setPairs, lookupCol, hk, hk', ih]

theorem getCol_setCol_self (df : DataFrame) (c : String) (v : List ℚ) :
    (df.setCol c v).getCol c = some v :=
  lookupCol_setPairs_self df.numCols c v

theorem getCol_setCol_ne (df : DataFrame) {c c' : String} (h : c' ≠ c) (v : List ℚ) :
    (df.setCol c v).getCol c' = df.getCol c' :=
  lookupCol_setPairs_ne df.numCols h v

theorem hasCol_setCol_self (df : DataFrame) (c : String) (v : List ℚ) :
    (df.setCol c v).hasCol c = true := by
  simp [DataFrame.hasCol, getCol_setCol_self]

theorem hasCol_setCol_ne (df : DataFrame) {c c' : String} (h : c' ≠ c) (v : List ℚ) :
    (df.setCol c v).hasCol c' = df.hasCol c' := by
  simp [DataFrame.hasCol, getCol_setCol_ne df h]

theorem getCol_setStr (df : DataFrame) (c : String) (v : List String) (c' : String) :
    (df.setStr c v).getCol c' = df.getCol c' := rfl

theorem getStr_setCol (df : DataFrame) (c : String) (v : List ℚ) (c' : String) :
    (df.setCol c v).getStr c' = df.getStr c' := rfl

theorem nrows_setCol (df : DataFrame) (c : String) (v : List ℚ) :
    (df.setCol c v).nrows = df.nrows := rfl

theorem hasCol_iff_getCol_eq_some {df : DataFrame} {c : String} :
    df.hasCol c = true ↔ ∃ v, df.getCol c = some v := by
  simp [DataFrame.hasCol, Option.isSome_iff_exists]

theorem getStr_setStr_self (df : DataFrame) (c : String) (v : List String) :
    (df.setStr c v).getStr c = some v :=
  lookupCol_setPairs_self df.strCols c v

theorem hasCol_congr {df df' : DataFrame} {c : String}
    (h : df'.getCol c = df.getCol c) : df'.hasCol c = df.hasCol c := by
  simp [DataFrame.hasCol, h]

theorem getCol_eq_none_of_hasCol_false {df : DataFrame} {c : String}
    (h : df.hasCol c = false) : df.getCol c = none := by
  cases hg : df.getCol c with
  | none => rfl
  | some v => simp [DataFrame.hasCol, hg] at h

/-! ### Helper lemmas: the enrichment steps -/

theorem ensureHealthBurden_of_present {df : DataFrame}
    (h : df.hasCol "health_burden_score" = true) : ensureHealthBurden df = df := by
  simp [ensureHealthBurden, h]

theorem ensureHealthBurden_getCol_ne (df : DataFrame) {c : String}
    (h : c ≠ "health_burden_score") :
    (ensureHealthBurden df).getCol c = df.getCol c := by
  unfold ensureHealthBurden
  split
  · rfl
  · split
    · rfl
    · exact getCol_setCol_ne df h _

theorem ensureHealthBurden_spec {df : DataFrame}
    (h : df.hasCol "health_burden_score" = false)
    (ha : (healthVars.filter (fun v => df.hasCol v)).isEmpty = false) :
    (ensureHealthBurden df).getCol "health_burden_score" =
      some (rowwiseMean df.nrows
        ((healthVars.filter (fun v => df.hasCol v)).map (fun v => (df.getCol v).getD []))) := by
  unfold ensureHealthBurden
  simp [h, ha, getCol_setCol_self]

theorem ensureHealthBurden_of_none {df : DataFrame}
    (h : df.hasCol "health_burden_score" = false)
    (ha : (healthVars.filter (fun v => df.hasCol v)).isEmpty = true) :
    ensureHealthBurden df = df := by
  unfold ensureHealthBurden
  simp [h, ha]

theorem ensureHealthBurden_nrows (df : DataFrame) :
    (ensureHealthBurden df).nrows = df.nrows := by
  unfold ensureHealthBurden
  split
  · rfl
  · split <;> rfl

theorem ensurePopulation_of_present {df : DataFrame}
    (h : df.hasCol "population" = true) : ensurePopulation df = (df, []) := by
  simp [ensurePopulation, h]

theorem ensurePopulation_of_absent {df : DataFrame}
    (h : df.hasCol "population" = false) :
    ensurePopulation df =
      (df.setCol "population" (List.replicate df.nrows 100000), [popWarning]) := by
  simp [ensurePopulation, h]

theorem ensurePopulation_getCol_ne (df : DataFrame) {c : String} (h : c ≠ "population") :
    (ensurePopulation df).1.getCol c = df.getCol c := by
  unfold ensurePopulation
  split
  · rfl
  · exact getCol_setCol_ne df h _

theorem ensurePopulation_hasPop (df : DataFrame) :
    (ensurePopulation df).1.hasCol "population" = true := by
  unfold ensurePopulation
  split
  · next hp => simpa using hp
  · exact hasCol_setCol_self df _ _

theorem ensureClinicsPer100k_of_present {df : DataFrame}
    (h : df.hasCol "clinics_per_100k" = true) : ensureClinicsPer100k df = .ok df := by
  simp [ensureClinicsPer100k, h]

theorem ensureClinicsPer100k_getCol_ne {df df' : DataFrame}
    (h : ensureClinicsPer100k df = .ok df') {c : String} (hc : c ≠ "clinics_per_100k") :
    df'.getCol c = df.getCol c := by
  unfold ensureClinicsPer100k at h
  split at h
  · split at h
    · cases h
      exact getCol_setCol_ne df hc _
    · cases h
  · cases h
    rfl

theorem ensureClinicsPer100k_spec {df df' : DataFrame}
    (habs : df.hasCol "clinics_per_100k" = false)
    (hpop : df.hasCol "population" = true)
    (h : ensureClinicsPer100k df = .ok df') :
    ∃ cc pop, df.getCol "clinic_count" = some cc ∧ df.getCol "population" = some pop ∧
      df'.getCol "clinics_per_100k" =
        some (List.zipWith (fun c p => c / p * 100000) cc pop) := by
  unfold ensureClinicsPer100k at h
  rw [habs, hpop] at h
  simp only [Bool.not_false, Bool.and_self, if_true] at h
  cases hcc : df.getCol "clinic_count" with
  | none =>
      rw [hcc] at h
      cases hp : df.getCol "population" <;> rw [hp] at h <;> cases h
  | some cc =>
      cases hp : df.getCol "population" with
      | none =>
          rw [hasCol_iff_getCol_eq_some] at hpop
          obtain ⟨v, hv⟩ := hpop
          rw [hv] at hp
          cases hp
      | some pop =>
          rw [hcc, hp] at h
          cases h
          exact ⟨cc, pop, rfl, rfl, getCol_setCol_self df _ _⟩

theorem ensureHealthNeed_of_present {df : DataFrame}
    (h : df.hasCol "health_need" = true) : ensureHealthNeed df = df := by
  simp [ensureHealthNeed, h]

theorem ensureHealthNeed_getCol_ne (df : DataFrame) {c : String} (hc : c ≠ "health_need") :
    (ensureHealthNeed df).getCol c = df.getCol c := by
  unfold ensureHealthNeed
  split
  · exact getCol_setCol_ne df hc _
  · rfl

theorem ensureHealthNeed_spec {df : DataFrame}
    (habs : df.hasCol "health_need" = false)
    (hhbs : df.hasCol "health_burden_score" = true) :
    ∃ h, df.getCol "health_burden_score" = some h ∧
      (ensureHealthNeed df).getCol "health_need" =
        some (h.map (fun x => (x - colMin h) / (colMax h - colMin h))) := by
  obtain ⟨hcol, hh⟩ := hasCol_iff_getCol_eq_some.1 hhbs
  refine ⟨hcol, hh, ?_⟩
  unfold ensureHealthNeed
  simp [habs, hhbs, hh, getCol_setCol_self]

theorem ensureHealthNeed_hasHN (df : DataFrame) :
    (ensureHealthNeed df).hasCol "health_need" =
      (df.hasCol "health_need" || df.hasCol "health_burden_score") := by
  unfold ensureHealthNeed
  split
  · next hcond =>
      simp only [Bool.and_eq_true, Bool.not_eq_true'] at hcond
      simp [hasCol_setCol_self, hcond.1, hcond.2]
  · next hcond =>
      simp only [Bool.and_eq_true, Bool.not_eq_true', not_and] at hcond
      cases hhn : df.hasCol "health_need" with
      | true => simp
      | false => simp [hcond hhn]

theorem ensurePopGap_of_present {df : DataFrame}
    (h : df.hasCol "pop_adjusted_gap" = true) : ensurePopGap df = .ok df := by
  simp [ensurePopGap, h]

theorem ensurePopGap_getCol_ne {df df' : DataFrame}
    (h : ensurePopGap df = .ok df') {c : String} (hc : c ≠ "pop_adjusted_gap") :
    df'.getCol c = df.getCol c := by
  unfold ensurePopGap at h
  split at h
  · split at h
    · cases h
      exact getCol_setCol_ne df hc _
    · cases h
  · cases h
    rfl

theorem ensurePopGap_spec {df df' : DataFrame}
    (habs : df.hasCol "pop_adjusted_gap" = false)
    (hhn : df.hasCol "health_need" = true)
    (h : ensurePopGap df = .ok df') :
    ∃ hn pop, df.getCol "health_need" = some hn ∧ df.getCol "population" = some pop ∧
      df'.getCol "pop_adjusted_gap" = some (List.zipWith (fun h p => h * p) hn pop) := by
  unfold ensurePopGap at h
  rw [habs, hhn] at h
  simp only [Bool.not_false, Bool.and_self, if_true] at h
  cases hhc : df.getCol "health_need" with
  | none =>
      rw [hhc] at h
      cases hp : df.getCol "population" <;> rw [hp] at h <;> cases h
  | some hn =>
      cases hp : df.getCol "population" with
      | none =>
          rw [hhc, hp] at h
          cases h
      | some pop =>
          rw [hhc, hp] at h
          cases h
          exact ⟨hn, pop, rfl, rfl, getCol_setCol_self df _ _⟩

/-- Decomposition of `enrichMetrics` into its five steps. -/
theorem enrichMetrics_decomp {df df' : DataFrame} {w : List String}
    (h : enrichMetrics df = .ok (df', w)) :
    ∃ df3, ensureClinicsPer100k (ensurePopulation (ensureHealthBurden df)).1 = .ok df3 ∧
      ensurePopGap (ensureHealthNeed df3) = .ok df' ∧
      w = (ensurePopulation (ensureHealthBurden df)).2 := by
  cases h3 : ensureClinicsPer100k (ensurePopulation (ensureHealthBurden df)).1 with
  | error e =>
      simp [enrichMetrics, h3, Except.bind, bind, Except.map, Functor.map] at h
  | ok df3 =>
      cases h5 : ensurePopGap (ensureHealthNeed df3) with
      | error e =>
          simp [enrichMetrics, h3, h5, Except.bind, bind, Except.map, Functor.map] at h
      | ok df5 =>
          simp only [enrichMetrics, h3, h5, Except.bind, bind, Except.map, Functor.map,
            pure, Except.pure, Except.ok.injEq, Prod.mk.injEq] at h
          exact ⟨df3, rfl, by rw [h5, h.1], h.2.symm⟩

theorem ensureHealthBurden_preserves {df : DataFrame} {c : String}
    (hc : df.hasCol c = true) : (ensureHealthBurden df).getCol c = df.getCol c := by
  by_cases hcc : c = "health_burden_score"
  · subst hcc
    rw [ensureHealthBurden_of_present hc]
  · exact ensureHealthBurden_getCol_ne df hcc

theorem ensurePopulation_preserves {df : DataFrame} {c : String}
    (hc : df.hasCol c = true) : (ensurePopulation df).1.getCol c = df.getCol c := by
  by_cases hcc : c = "population"
  · subst hcc
    rw [ensurePopulation_of_present hc]
  · exact ensurePopulation_getCol_ne df hcc

theorem ensureClinicsPer100k_preserves {df df' : DataFrame}
    (h : ensureClinicsPer100k df = .ok df') {c : String}
    (hc : df.hasCol c = true) : df'.getCol c = df.getCol c := by
  by_cases hcc : c = "clinics_per_100k"
  · subst hcc
    rw [ensureClinicsPer100k_of_present hc] at h
    cases h
    rfl
  · exact ensureClinicsPer100k_getCol_ne h hcc

theorem ensureHealthNeed_preserves {df : DataFrame} {c : String}
    (hc : df.hasCol c = true) : (ensureHealthNeed df).getCol c = df.getCol c := by
  by_cases hcc : c = "health_need"
  · subst hcc
    rw [ensureHealthNeed_of_present hc]
  · exact ensureHealthNeed_getCol_ne df hcc

theorem ensurePopGap_preserves {df df' : DataFrame}
    (h : ensurePopGap df = .ok df') {c : String}
    (hc : df.hasCol c = true) : df'.getCol c = df.getCol c := by
  by_cases hcc : c = "pop_adjusted_gap"
  · subst hcc
    rw [ensurePopGap_of_present hc] at h
    cases h
    rfl
  · exact ensurePopGap_getCol_ne h hcc

/-- Every column present in the input keeps its values through the whole
enrichment: each step only assigns a column it found absent. -/
theorem enrichMetrics_preserves {df df' : DataFrame} {w : List String}
    (h : enrichMetrics df = .ok (df', w)) (c : String)
    (hc : df.hasCol c = true) : df'.getCol c = df.getCol c := by
  obtain ⟨df3, h3, h5, -⟩ := enrichMetrics_decomp h
  have e1 := ensureHealthBurden_preserves hc
  have hc1 : (ensureHealthBurden df).hasCol c = true := by rw [hasCol_congr e1]; exact hc
  have e2 := ensurePopulation_preserves hc1
  have hc2 : (ensurePopulation (ensureHealthBurden df)).1.hasCol c = true := by
    rw [hasCol_congr e2]; exact hc1
  have e3 := ensureClinicsPer100k_preserves h3 hc2
  have hc3 : df3.hasCol c = true := by rw [hasCol_congr e3]; exact hc2
  have e4 := ensureHealthNeed_preserves hc3
  have hc4 : (ensureHealthNeed df3).hasCol c = true := by rw [hasCol_congr e4]; exact hc3
  have e5 := ensurePopGap_preserves h5 hc4
  rw [e5, e4, e3, e2, e1]

theorem ensureHealthNeed_of_noHBS {df : DataFrame}
    (h : df.hasCol "health_burden_score" = false) : ensureHealthNeed df = df := by
  simp [ensureHealthNeed, h]

theorem ensurePopGap_of_noHN {df : DataFrame}
    (h : df.hasCol "health_need" = false) : ensurePopGap df = .ok df := by
  simp [ensurePopGap, h]

/-- The `health_burden_score` column of the enriched frame is the one produced
by the first step. -/
theorem enrichMetrics_getCol_hbs {df df' : DataFrame} {w : List String}
    (h : enrichMetrics df = .ok (df', w)) :
    df'.getCol "health_burden_score" = (ensureHealthBurden df).getCol "health_burden_score" := by
  obtain ⟨df3, h3, h5, -⟩ := enrichMetrics_decomp h
  rw [ensurePopGap_getCol_ne h5 (by decide), ensureHealthNeed_getCol_ne _ (by decide),
    ensureClinicsPer100k_getCol_ne h3 (by decide), ensurePopulation_getCol_ne _ (by decide)]

/-! ### Helper lemmas: minimum and maximum of a column -/

theorem foldl_min_le_init (t : List ℚ) (a : ℚ) : t.foldl min a ≤ a := by
  induction t generalizing a with
  | nil => exact le_refl a
  | cons x t ih => exact le_trans (ih (min a x)) (min_le_left a x)

theorem foldl_min_le_mem {t : List ℚ} {x : ℚ} (hx : x ∈ t) (a : ℚ) :
    t.foldl min a ≤ x := by
  induction t generalizing a with
  | nil => cases hx
  | cons y t ih =>
      cases List.mem_cons.1 hx with
      | inl hxy =>
          subst hxy
          exact le_trans (foldl_min_le_init t (min a x)) (min_le_right a x)
      | inr hxt => exact ih hxt (min a y)

theorem colMin_le_of_mem {l : List ℚ} {x : ℚ} (hx : x ∈ l) : colMin l ≤ x := by
  cases l with
  | nil => cases hx
  | cons a t =>
      cases List.mem_cons.1 hx with
      | inl hxa => subst hxa; exact foldl_min_le_init t x
      | inr hxt => exact foldl_min_le_mem hxt a

theorem init_le_foldl_max (t : List ℚ) (a : ℚ) : a ≤ t.foldl max a := by
  induction t generalizing a with
  | nil => exact le_refl a
  | cons x t ih => exact le_trans (le_max_left a x) (ih (max a x))

theorem mem_le_foldl_max {t : List ℚ} {x : ℚ} (hx : x ∈ t) (a : ℚ) :
    x ≤ t.foldl max a := by
  induction t generalizing a with
  | nil => cases hx
  | cons y t ih =>
      cases List.mem_cons.1 hx with
      | inl hxy =>
          subst hxy
          exact le_trans (le_max_right a x) (init_le_foldl_max t (max a x))
      | inr hxt => exact ih hxt (max a y)

theorem le_colMax_of_mem {l : List ℚ} {x : ℚ} (hx : x ∈ l) : x ≤ colMax l := by
  cases l with
  | nil => cases hx
  | cons a t =>
      cases List.mem_cons.1 hx with
      | inl hxa => subst hxa; exact init_le_foldl_max t x
      | inr hxt => exact mem_le_foldl_max hxt a

/-! ### Helper lemmas: the page pipeline -/

theorem execSummaryPage_ok {df : DataFrame} {p : List Page}
    (h : execSummaryPage df = .ok p) :
    p = [.execSummary] ∧ df.hasCol "clinic_count" = true ∧ df.hasCol "svi_overall" = true ∧
      df.hasCol "svi_socioeconomic" = true ∧ df.hasCol "health_burden_score" = true := by
  unfold execSummaryPage at h
  split at h
  · next hcols =>
      cases h
      simp only [hasCols, List.all_cons, List.all_nil, Bool.and_true,
        Bool.and_eq_true] at hcols
      exact ⟨rfl, hcols.1, hcols.2.1, hcols.2.2.1, hcols.2.2.2⟩
  · cases h

theorem keyStatsPage_ok {df : DataFrame} {p : List Page}
    (h : keyStatsPage df = .ok p) : p = [.keyStats] := by
  unfold keyStatsPage at h
  split at h
  · cases h; rfl
  · cases h

theorem boxplotsPage_ok {df : DataFrame} {dfB : DataFrame} {p : List Page}
    (h : boxplotsPage df = .ok (dfB, p)) :
    ∃ q, pdQcut4 ((df.getCol "svi_overall").getD []) = .ok q ∧
      dfB = df.setStr "svi_quartile" q ∧ p = [.boxplots] := by
  unfold boxplotsPage at h
  split at h
  · split at h
    · cases h
    · next q hq =>
        cases h
        exact ⟨q, hq, rfl, rfl⟩
  · cases h

theorem rankingsPage_ok_of_gap {df : DataFrame} {p : List Page} {tbl : Option (List URow)}
    (hgap : df.hasCol "pop_adjusted_gap" = true)
    (h : rankingsPage df = .ok (p, tbl)) :
    p = [.rankings] ∧ tbl = some (topUnderserved df) := by
  unfold rankingsPage at h
  rw [hgap] at h
  simp only [if_true] at h
  split at h
  · cases h
    exact ⟨rfl, rfl⟩
  · cases h

theorem stateSummaryPage_ok {df : DataFrame} {p : List Page} {st : List SRow}
    (h : stateSummaryPage df = .ok (p, st)) :
    p = [.stateSummary] ∧ st = topStates (stateStats df) := by
  unfold stateSummaryPage at h
  split at h
  · cases h
    exact ⟨rfl, rfl⟩
  · cases h

/-- Decomposition of a successful `create_pdf_report` run into its steps. -/
theorem create_pdf_report_decomp {df : DataFrame} {out : String} {r : ReportResult}
    (h : create_pdf_report df out = .ok r) :
    ∃ dfE w p2 p3 dfB p4 p5 tbl p6 st,
      enrichMetrics df = .ok (dfE, w) ∧
      execSummaryPage dfE = .ok p2 ∧
      keyStatsPage dfE = .ok p3 ∧
      boxplotsPage dfE = .ok (dfB, p4) ∧
      rankingsPage dfB = .ok (p5, tbl) ∧
      stateSummaryPage dfB = .ok (p6, st) ∧
      r = { df := dfB
            pages := coverPage dfE ++ p2 ++ p3 ++ p4 ++ p5 ++ p6 ++ recommendationsPage dfB
            warnings := w
            underserved := tbl
            states := st
            returned := out } := by
  unfold create_pdf_report at h
  split at h
  · cases h
  · next dfE w hE =>
    split at h
    · cases h
    · next p2 h2 =>
      split at h
      · cases h
      · next p3 h3 =>
        split at h
        · cases h
        · next dfB p4 h4 =>
          split at h
          · cases h
          · next p5 tbl h5 =>
            split at h
            · cases h
            · next p6 st h6 =>
              cases h
              exact ⟨dfE, w, p2, p3, dfB, p4, p5, tbl, p6, st, hE, h2, h3, h4, h5, h6, rfl⟩

/-- The column `population` is always present after enrichment. -/
theorem enrichMetrics_hasPop {df df' : DataFrame} {w : List String}
    (h : enrichMetrics df = .ok (df', w)) : df'.hasCol "population" = true := by
  obtain ⟨df3, h3, h5, -⟩ := enrichMetrics_decomp h
  have e1 : df'.getCol "population" = df3.getCol "population" := by
    rw [ensurePopGap_getCol_ne h5 (by decide), ensureHealthNeed_getCol_ne _ (by decide)]
  have e2 : df3.getCol "population" =
      (ensurePopulation (ensureHealthBurden df)).1.getCol "population" :=
    ensureClinicsPer100k_getCol_ne h3 (by decide)
  rw [hasCol_congr (e1.trans e2)]
  exact ensurePopulation_hasPop _

/-- After enrichment, the presence of `health_burden_score` forces the
presence of `pop_adjusted_gap`. -/
theorem enrichMetrics_gap_of_hbs {df df' : DataFrame} {w : List String}
    (h : enrichMetrics df = .ok (df', w))
    (hh : df'.hasCol "health_burden_score" = true) :
    df'.hasCol "pop_adjusted_gap" = true := by
  obtain ⟨df3, h3, h5, -⟩ := enrichMetrics_decomp h
  have ehbs : df'.getCol "health_burden_score" = df3.getCol "health_burden_score" := by
    rw [ensurePopGap_getCol_ne h5 (by decide), ensureHealthNeed_getCol_ne _ (by decide)]
  have hbs3 : df3.hasCol "health_burden_score" = true := by
    rw [← hasCol_congr ehbs]; exact hh
  have hn4 : (ensureHealthNeed df3).hasCol "health_need" = true := by
    rw [ensureHealthNeed_hasHN, hbs3, Bool.or_true]
  cases hgap4 : (ensureHealthNeed df3).hasCol "pop_adjusted_gap" with
  | true =>
      have := ensurePopGap_of_present hgap4
      rw [this] at h5
      cases h5
      exact hgap4
  | false =>
      obtain ⟨hn, pop, -, -, hres⟩ := ensurePopGap_spec hgap4 hn4 h5
      rw [hasCol_iff_getCol_eq_some]
      exact ⟨_, hres⟩

/-- The column `clinics_per_100k` is always present after a successful enrichment. -/
theorem enrichMetrics_hasCP {df df' : DataFrame} {w : List String}
    (h : enrichMetrics df = .ok (df', w)) :
    df'.hasCol "clinics_per_100k" = true := by
  obtain ⟨df3, h3, h5, -⟩ := enrichMetrics_decomp h
  have ecp : df'.getCol "clinics_per_100k" = df3.getCol "clinics_per_100k" := by
    rw [ensurePopGap_getCol_ne h5 (by decide), ensureHealthNeed_getCol_ne _ (by decide)]
  rw [hasCol_congr ecp]
  cases hpre : (ensurePopulation (ensureHealthBurden df)).1.hasCol "clinics_per_100k" with
  | true =>
      rw [ensureClinicsPer100k_of_present hpre] at h3
      cases h3
      exact hpre
  | false =>
      obtain ⟨cc, pop, -, -, hres⟩ :=
        ensureClinicsPer100k_spec hpre (ensurePopulation_hasPop _) h3
      exact hasCol_iff_getCol_eq_some.2 ⟨_, hres⟩

/-- After enrichment, the presence of `health_burden_score` forces the
presence of `health_need`. -/
theorem enrichMetrics_hn_of_hbs {df df' : DataFrame} {w : List String}
    (h : enrichMetrics df = .ok (df', w))
    (hh : df'.hasCol "health_burden_score" = true) :
    df'.hasCol "health_need" = true := by
  obtain ⟨df3, h3, h5, -⟩ := enrichMetrics_decomp h
  have ehbs : df'.getCol "health_burden_score" = df3.getCol "health_burden_score" := by
    rw [ensurePopGap_getCol_ne h5 (by decide), ensureHealthNeed_getCol_ne _ (by decide)]
  have hbs3 : df3.hasCol "health_burden_score" = true := by
    rw [← hasCol_congr ehbs]; exact hh
  have ehn : df'.getCol "health_need" = (ensureHealthNeed df3).getCol "health_need" :=
    ensurePopGap_getCol_ne h5 (by decide)
  rw [hasCol_congr ehn, ensureHealthNeed_hasHN, hbs3, Bool.or_true]

/-! ### Helper lemmas: sorting, the entry point, and float values -/

theorem map_getD_range (l : List ℚ) :
    (List.range l.length).map (fun i => l.getD i 0) = l := by
  apply List.ext_getElem (by simp)
  intro i h1 h2
  simp [List.getD_eq_getElem?_getD, List.getElem?_eq_getElem h2]

/-- Taking a prefix of an insertion sort yields a sorted list that, together
with the dropped suffix, is a permutation of the input and dominates the
suffix. -/
theorem insertionSort_take_drop {α : Type} (r : α → α → Prop) [DecidableRel r]
    [IsTotal α r] [IsTrans α r] (l : List α) (k : Nat) :
    List.Sorted r ((l.insertionSort r).take k)
    ∧ ((l.insertionSort r).take k ++ (l.insertionSort r).drop k).Perm l
    ∧ (∀ x ∈ (l.insertionSort r).take k, ∀ y ∈ (l.insertionSort r).drop k, r x y) := by
  have hs := List.sorted_insertionSort r l
  have hsplit : (l.insertionSort r).take k ++ (l.insertionSort r).drop k = l.insertionSort r :=
    List.take_append_drop k _
  refine ⟨hs.sublist (List.take_sublist _ _), ?_, ?_⟩
  · rw [hsplit]
    exact List.perm_insertionSort r l
  · rw [← hsplit] at hs
    exact fun x hx y hy => (List.pairwise_append.1 hs).2.2 x hx y hy

/-- Decomposition of a successful `runMain`. -/
theorem runMain_decomp {fs fs' : FS} (h : (runMain fs).1 = .ok fs') :
    ∃ rf rres,
      lookupCol fs data_path = some (MFile.csv rf) ∧
      create_pdf_report (interpretFrame (coerceColumns rf)) output_file = .ok rres ∧
      fs' = setPairs fs rres.returned (MFile.pdf rres.pages) ∧
      (runMain fs).2 = [Event.readCSV data_path, Event.writePDF rres.returned] := by
  cases hl : lookupCol fs data_path with
  | none => simp [runMain, hl] at h
  | some f =>
    cases f with
    | pdf d => simp [runMain, hl] at h
    | csv rf =>
      cases hc : create_pdf_report (interpretFrame (coerceColumns rf)) output_file with
      | error e => simp [runMain, hl, hc] at h
      | ok rr =>
          refine ⟨rf, rr, rfl, hc, ?_, ?_⟩
          · have hok : (runMain fs).1 =
                .ok (setPairs fs rr.returned (MFile.pdf rr.pages)) := by
              simp [runMain, hl, hc]
            rw [hok] at h
            exact (Except.ok.inj h).symm
          · simp [runMain, hl, hc]

/-- The values of `replaceInf` are never infinities. -/
theorem replaceInf_no_inf (l : List FVal) :
    ∀ v ∈ replaceInf l, v ≠ FVal.inf ∧ v ≠ FVal.ninf := by
  intro v hv
  obtain ⟨u, -, hu⟩ := List.mem_map.1 hv
  by_cases hcase : u = FVal.inf ∨ u = FVal.ninf
  · rw [if_pos hcase] at hu
    rw [← hu]
    exact ⟨fun hh => FVal.noConfusion hh, fun hh => FVal.noConfusion hh⟩
  · rw [if_neg hcase] at hu
    rw [← hu]
    exact ⟨fun hh => hcase (Or.inl hh), fun hh => hcase (Or.inr hh)⟩

/-! ### The claims -/

/-- C1: for every input dataframe, `create_pdf_report` derives each of the
four metric columns only when it is absent and its inputs are available:
`health_burden_score` is the row-wise mean of those of
[`stroke`, `physical_inactivity`, `self_care_disability`, `social_isolation`]
present in the dataframe; `clinics_per_100k` is
`clinic_count / population * 100000`; `health_need` is
`(health_burden_score - min) / (max - min)` over the column;
`pop_adjusted_gap` is `health_need * population`. -/
theorem C1_metric_enrichment (df df' : DataFrame) (w : List String)
    (h : enrichMetrics df = .ok (df', w)) :
    (df.hasCol "health_burden_score" = false →
      ((healthVars.filter (fun v => df.hasCol v)).isEmpty = true →
          df'.getCol "health_burden_score" = none)
      ∧ ((healthVars.filter (fun v => df.hasCol v)).isEmpty = false →
          df'.getCol "health_burden_score" =
            some (rowwiseMean df.nrows
              ((healthVars.filter (fun v => df.hasCol v)).map
                (fun v => (df.getCol v).getD [])))))
    ∧ (df.hasCol "clinics_per_100k" = false →
        ∃ cc pop, df.getCol "clinic_count" = some cc ∧
          df'.getCol "population" = some pop ∧
          df'.getCol "clinics_per_100k" =
            some (List.zipWith (fun c p => c / p * 100000) cc pop))
    ∧ (df.hasCol "health_need" = false →
        (∀ hb, df'.getCol "health_burden_score" = some hb →
          df'.getCol "health_need" =
            some (hb.map (fun x => (x - colMin hb) / (colMax hb - colMin hb))))
        ∧ (df'.hasCol "health_burden_score" = false →
            df'.getCol "health_need" = none))
    ∧ (df.hasCol "pop_adjusted_gap" = false →
        (∀ hn pop, df'.getCol "health_need" = some hn →
          df'.getCol "population" = some pop →
          df'.getCol "pop_adjusted_gap" = some (List.zipWith (fun x p => x * p) hn pop))
        ∧ (df'.hasCol "health_need" = false →
            df'.getCol "pop_adjusted_gap" = none)) := by
  obtain ⟨df3, h3, h5, hw⟩ := enrichMetrics_decomp h
  have ecp : df'.getCol "clinics_per_100k" = df3.getCol "clinics_per_100k" := by
    rw [ensurePopGap_getCol_ne h5 (by decide), ensureHealthNeed_getCol_ne _ (by decide)]
  have ehbs : df'.getCol "health_burden_score" = df3.getCol "health_burden_score" := by
    rw [ensurePopGap_getCol_ne h5 (by decide), ensureHealthNeed_getCol_ne _ (by decide)]
  have epop : df'.getCol "population" =
      (ensurePopulation (ensureHealthBurden df)).1.getCol "population" := by
    rw [ensurePopGap_getCol_ne h5 (by decide), ensureHealthNeed_getCol_ne _ (by decide),
      ensureClinicsPer100k_getCol_ne h3 (by decide)]
  have ehn : df'.getCol "health_need" = (ensureHealthNeed df3).getCol "health_need" :=
    ensurePopGap_getCol_ne h5 (by decide)
  refine ⟨?_, ?_, ?_, ?_⟩
  · intro hab
    constructor
    · intro hav
      rw [enrichMetrics_getCol_hbs h, ensureHealthBurden_of_none hab hav]
      exact getCol_eq_none_of_hasCol_false hab
    · intro hav
      rw [enrichMetrics_getCol_hbs h]
      exact ensureHealthBurden_spec hab hav
  · intro habs
    have e21 : (ensurePopulation (ensureHealthBurden df)).1.getCol "clinics_per_100k" =
        df.getCol "clinics_per_100k" := by
      rw [ensurePopulation_getCol_ne _ (by decide), ensureHealthBurden_getCol_ne _ (by decide)]
    have habs2 : (ensurePopulation (ensureHealthBurden df)).1.hasCol "clinics_per_100k" = false := by
      rw [hasCol_congr e21]; exact habs
    obtain ⟨cc, pop, hcc2, hpop2, hcp3⟩ :=
      ensureClinicsPer100k_spec habs2 (ensurePopulation_hasPop _) h3
    have ecc : (ensurePopulation (ensureHealthBurden df)).1.getCol "clinic_count" =
        df.getCol "clinic_count" := by
      rw [ensurePopulation_getCol_ne _ (by decide), ensureHealthBurden_getCol_ne _ (by decide)]
    exact ⟨cc, pop, by rw [← ecc]; exact hcc2, by rw [epop]; exact hpop2,
      by rw [ecp]; exact hcp3⟩
  · intro habs
    have e31 : df3.getCol "health_need" = df.getCol "health_need" := by
      rw [ensureClinicsPer100k_getCol_ne h3 (by decide),
        ensurePopulation_getCol_ne _ (by decide), ensureHealthBurden_getCol_ne _ (by decide)]
    have habs3 : df3.hasCol "health_need" = false := by
      rw [hasCol_congr e31]; exact habs
    constructor
    · intro hb hhb
      have hb3 : df3.getCol "health_burden_score" = some hb := by rw [← ehbs]; exact hhb
      have hhbs3 : df3.hasCol "health_burden_score" = true :=
        hasCol_iff_getCol_eq_some.2 ⟨hb, hb3⟩
      obtain ⟨h0, hh0, hres⟩ := ensureHealthNeed_spec habs3 hhbs3
      have hbe : h0 = hb := by
        rw [hh0] at hb3
        exact Option.some.inj hb3
      rw [ehn, hres, hbe]
    · intro hno
      have hhbs3 : df3.hasCol "health_burden_score" = false := by
        rw [hasCol_congr ehbs] at hno
        exact hno
      rw [ehn, ensureHealthNeed_of_noHBS hhbs3]
      exact getCol_eq_none_of_hasCol_false habs3
  · intro habs
    have e41 : (ensureHealthNeed df3).getCol "pop_adjusted_gap" = df.getCol "pop_adjusted_gap" := by
      rw [ensureHealthNeed_getCol_ne _ (by decide), ensureClinicsPer100k_getCol_ne h3 (by decide),
        ensurePopulation_getCol_ne _ (by decide), ensureHealthBurden_getCol_ne _ (by decide)]
    have habs4 : (ensureHealthNeed df3).hasCol "pop_adjusted_gap" = false := by
      rw [hasCol_congr e41]; exact habs
    constructor
    · intro hn pop hhn hpop
      have hhn4 : (ensureHealthNeed df3).getCol "health_need" = some hn := by
        rw [← ehn]; exact hhn
      have hhncol : (ensureHealthNeed df3).hasCol "health_need" = true :=
        hasCol_iff_getCol_eq_some.2 ⟨hn, hhn4⟩
      obtain ⟨hn', pop', hg1, hg2, hg3⟩ := ensurePopGap_spec habs4 hhncol h5
      have ehn' : hn' = hn := by
        rw [hg1] at hhn4
        exact Option.some.inj hhn4
      have epop4 : (ensureHealthNeed df3).getCol "population" = some pop := by
        have : (ensureHealthNeed df3).getCol "population" =
            (ensurePopulation (ensureHealthBurden df)).1.getCol "population" := by
          rw [ensureHealthNeed_getCol_ne _ (by decide),
            ensureClinicsPer100k_getCol_ne h3 (by decide)]
        rw [this, ← epop]
        exact hpop
      have epop' : pop' = pop := by
        rw [hg2] at epop4
        exact Option.some.inj epop4
      rw [hg3, ehn', epop']
    · intro hno
      have hhn4 : (ensureHealthNeed df3).hasCol "health_need" = false := by
        rw [hasCol_congr ehn] at hno
        exact hno
      rw [ensurePopGap_of_noHN hhn4] at h5
      cases h5
      rw [e41]
      exact getCol_eq_none_of_hasCol_false habs

/-- Witness for C1 at a concrete frame: all four metric columns were absent
and are derived by the stated formulas. -/
theorem C1_metric_enrichment_witness :
    enrichMetrics exDF = Except.ok (exEnriched, []) ∧
    exEnriched.getCol "health_burden_score" =
      some (rowwiseMean exDF.nrows
        ((healthVars.filter (fun v => exDF.hasCol v)).map (fun v => (exDF.getCol v).getD []))) ∧
    exEnriched.getCol "clinics_per_100k" =
      some (List.zipWith (fun c p => c / p * 100000)
        [0, 1, 2, 3, 4] [1000, 2000, 3000, 4000, 5000]) := by
  have h : enrichMetrics exDF = Except.ok (exEnriched, []) := by with_unfolding_all rfl
  have cl := C1_metric_enrichment exDF exEnriched [] h
  refine ⟨h, (cl.1 rfl).2 rfl, ?_⟩
  obtain ⟨cc, pop, h1, h2, h3⟩ := cl.2.1 rfl
  have hcc : cc = [0, 1, 2, 3, 4] := by
    have h1' : (some cc : Option (List ℚ)) = some [0, 1, 2, 3, 4] := by
      rw [← h1]; with_unfolding_all rfl
    exact Option.some.inj h1'
  have hpop : pop = [1000, 2000, 3000, 4000, 5000] := by
    have h2' : (some pop : Option (List ℚ)) = some [1000, 2000, 3000, 4000, 5000] := by
      rw [← h2]; with_unfolding_all rfl
    exact Option.some.inj h2'
  rw [hcc, hpop] at h3
  exact h3

/-- C3: for every input dataframe lacking a `population` column, the run does
not raise at that step: it prints the single warning and continues with the
default population 100000 substituted for every row; a frame that has the
column produces no warning (the warning is the pipeline's only
print-and-continue recovery, so the warning list of a successful run is
determined entirely by this step). -/
theorem C3_population_default (df : DataFrame) (out : String) (r : ReportResult)
    (h : create_pdf_report df out = .ok r) :
    (df.hasCol "population" = false →
       r.warnings = [popWarning] ∧
       r.df.getCol "population" = some (List.replicate df.nrows 100000))
    ∧ (df.hasCol "population" = true → r.warnings = []) := by
  obtain ⟨dfE, w, p2, p3, dfB, p4, p5, tbl, p6, st, hE, h2, h3, h4, h5, h6, hr⟩ :=
    create_pdf_report_decomp h
  obtain ⟨df3, hc3, hg5, hw⟩ := enrichMetrics_decomp hE
  have hrw : r.warnings = w := by rw [hr]
  have e1 : (ensureHealthBurden df).getCol "population" = df.getCol "population" :=
    ensureHealthBurden_getCol_ne df (by decide)
  constructor
  · intro hab
    have hab1 : (ensureHealthBurden df).hasCol "population" = false := by
      rw [hasCol_congr e1]; exact hab
    have hPopEq := ensurePopulation_of_absent hab1
    refine ⟨by rw [hrw, hw, hPopEq], ?_⟩
    obtain ⟨q, hq, hdfB, hp4⟩ := boxplotsPage_ok h4
    have hrdf : r.df = dfB := by rw [hr]
    have egB : dfB.getCol "population" = dfE.getCol "population" := by rw [hdfB]; rfl
    have eE : dfE.getCol "population" =
        (ensurePopulation (ensureHealthBurden df)).1.getCol "population" := by
      rw [ensurePopGap_getCol_ne hg5 (by decide), ensureHealthNeed_getCol_ne _ (by decide),
        ensureClinicsPer100k_getCol_ne hc3 (by decide)]
    rw [hrdf, egB, eE, hPopEq, getCol_setCol_self, ensureHealthBurden_nrows]
  · intro hpres
    have hp1 : (ensureHealthBurden df).hasCol "population" = true := by
      rw [hasCol_congr e1]; exact hpres
    rw [hrw, hw, ensurePopulation_of_present hp1]

/-- Witness for C3 at a concrete frame lacking `population`. -/
theorem C3_population_default_witness :
    create_pdf_report exDFNoPop "out.pdf" = Except.ok exReportNoPop ∧
    exDFNoPop.hasCol "population" = false ∧
    exReportNoPop.warnings = [popWarning] ∧
    exReportNoPop.df.getCol "population" = some (List.replicate exDFNoPop.nrows 100000) := by
  have h : create_pdf_report exDFNoPop "out.pdf" = Except.ok exReportNoPop := by
    with_unfolding_all rfl
  have cl := (C3_population_default exDFNoPop "out.pdf" exReportNoPop h).1 rfl
  exact ⟨h, rfl, cl.1, cl.2⟩

/-- C5: the metric-enrichment step leaves any already present
`health_burden_score`, `population`, `clinics_per_100k`, `health_need` or
`pop_adjusted_gap` column unchanged. -/
theorem C5_no_overwrite (df df' : DataFrame) (w : List String)
    (h : enrichMetrics df = .ok (df', w)) :
    ∀ c ∈ ["health_burden_score", "population", "clinics_per_100k", "health_need",
           "pop_adjusted_gap"],
      df.hasCol c = true → df'.getCol c = df.getCol c := by
  intro c _ hc
  exact enrichMetrics_preserves h c hc

/-- Witness for C5: a frame with `population` and `health_burden_score`
present keeps them unchanged. -/
theorem C5_no_overwrite_witness :
    enrichMetrics exDFConst = Except.ok (exConstEnriched, []) ∧
    exDFConst.hasCol "population" = true ∧
    exConstEnriched.getCol "population" = exDFConst.getCol "population" ∧
    exConstEnriched.getCol "health_burden_score" = exDFConst.getCol "health_burden_score" := by
  have h : enrichMetrics exDFConst = Except.ok (exConstEnriched, []) := by
    with_unfolding_all rfl
  exact ⟨h, rfl,
    C5_no_overwrite exDFConst exConstEnriched [] h "population" (by decide) rfl,
    C5_no_overwrite exDFConst exConstEnriched [] h "health_burden_score" (by decide) rfl⟩

/-- C2: the page renderer appends pages to the output document in the fixed
order cover, executive summary, key statistics, boxplots, rankings,
state-level summary, recommendations, each step contributing exactly one
page.  (The rankings step is guarded by the presence of `pop_adjusted_gap`,
but every successful run has that column: the executive summary requires
`health_burden_score`, whose presence forces `pop_adjusted_gap` after
enrichment.) -/
theorem C2_page_order (df : DataFrame) (out : String) (r : ReportResult)
    (h : create_pdf_report df out = .ok r) :
    r.pages = [Page.cover, Page.execSummary, Page.keyStats, Page.boxplots,
               Page.rankings, Page.stateSummary, Page.recommendations] := by
  obtain ⟨dfE, w, p2, p3, dfB, p4, p5, tbl, p6, st, hE, h2, h3, h4, h5, h6, hr⟩ :=
    create_pdf_report_decomp h
  obtain ⟨hp2, -, -, -, hhbsE⟩ := execSummaryPage_ok h2
  have hp3 := keyStatsPage_ok h3
  obtain ⟨q, hq, hdfB, hp4⟩ := boxplotsPage_ok h4
  have hgapE : dfE.hasCol "pop_adjusted_gap" = true := enrichMetrics_gap_of_hbs hE hhbsE
  have hgapB : dfB.hasCol "pop_adjusted_gap" = true := by
    rw [hdfB, hasCol_congr (getCol_setStr dfE _ _ _)]
    exact hgapE
  obtain ⟨hp5, htbl⟩ := rankingsPage_ok_of_gap hgapB h5
  obtain ⟨hp6, hst⟩ := stateSummaryPage_ok h6
  rw [hr]
  simp [coverPage, recommendationsPage, hp2, hp3, hp4, hp5, hp6]

/-- Witness for C2 at a concrete frame. -/
theorem C2_page_order_witness :
    create_pdf_report exDF "out.pdf" = Except.ok exReport ∧
    exReport.pages = [Page.cover, Page.execSummary, Page.keyStats, Page.boxplots,
                      Page.rankings, Page.stateSummary, Page.recommendations] := by
  have h : create_pdf_report exDF "out.pdf" = Except.ok exReport := by
    with_unfolding_all rfl
  exact ⟨h, C2_page_order exDF "out.pdf" exReport h⟩

/-- C8: `create_pdf_report` mutates the caller's dataframe in place: after a
successful call the frame holds all five metric columns (each pre-existing
one kept unchanged), has gained the `svi_quartile` column, and the function
returns its `output_path` argument unchanged. -/
theorem C8_in_place_mutation (df : DataFrame) (out : String) (r : ReportResult)
    (h : create_pdf_report df out = .ok r) :
    (∀ c ∈ ["health_burden_score", "population", "clinics_per_100k", "health_need",
            "pop_adjusted_gap"],
       df.hasCol c = true → r.df.getCol c = df.getCol c)
    ∧ r.df.hasCol "health_burden_score" = true
    ∧ r.df.hasCol "population" = true
    ∧ r.df.hasCol "clinics_per_100k" = true
    ∧ r.df.hasCol "health_need" = true
    ∧ r.df.hasCol "pop_adjusted_gap" = true
    ∧ r.df.hasStr "svi_quartile" = true
    ∧ r.returned = out := by
  obtain ⟨dfE, w, p2, p3, dfB, p4, p5, tbl, p6, st, hE, h2, h3, h4, h5, h6, hr⟩ :=
    create_pdf_report_decomp h
  obtain ⟨hp2, -, -, -, hhbsE⟩ := execSummaryPage_ok h2
  obtain ⟨q, hq, hdfB, hp4⟩ := boxplotsPage_ok h4
  have hrdf : r.df = dfB := by rw [hr]
  have egB : ∀ c, r.df.getCol c = dfE.getCol c := by
    intro c
    rw [hrdf, hdfB]
    rfl
  refine ⟨?_, ?_, ?_, ?_, ?_, ?_, ?_, by rw [hr]⟩
  · intro c _ hc
    rw [egB c]
    exact enrichMetrics_preserves hE c hc
  · rw [hasCol_congr (egB _)]
    exact hhbsE
  · rw [hasCol_congr (egB _)]
    exact enrichMetrics_hasPop hE
  · rw [hasCol_congr (egB _)]
    exact enrichMetrics_hasCP hE
  · rw [hasCol_congr (egB _)]
    exact enrichMetrics_hn_of_hbs hE hhbsE
  · rw [hasCol_congr (egB _)]
    exact enrichMetrics_gap_of_hbs hE hhbsE
  · rw [hrdf, hdfB, DataFrame.hasStr, getStr_setStr_self]
    rfl

/-- Witness for C8 at a concrete frame. -/
theorem C8_in_place_mutation_witness :
    create_pdf_report exDF "out.pdf" = Except.ok exReport ∧
    exDF.hasCol "population" = true ∧
    exReport.df.getCol "population" = exDF.getCol "population" ∧
    exReport.df.hasCol "pop_adjusted_gap" = true ∧
    exReport.df.hasStr "svi_quartile" = true ∧
    exReport.returned = "out.pdf" := by
  have h : create_pdf_report exDF "out.pdf" = Except.ok exReport := by
    with_unfolding_all rfl
  have cl := C8_in_place_mutation exDF "out.pdf" exReport h
  exact ⟨h, rfl, cl.1 "population" (by decide) rfl, cl.2.2.2.2.2.1, cl.2.2.2.2.2.2.1,
    cl.2.2.2.2.2.2.2⟩

/-- C4: the entry point reads the CSV at the one hard-coded input path,
coerces each column to numeric where possible, invokes `create_pdf_report` on
the result, and writes the PDF to the one hard-coded output path; an
exception raised while coercing a column is swallowed by the
`try`/`except: pass`, leaving that column unchanged (and a successful
coercion replaces the column with its converted value). -/
theorem C4_entry_point :
    (∀ fs fs', (runMain fs).1 = Except.ok fs' →
       ∃ rf rres,
         lookupCol fs data_path = some (MFile.csv rf) ∧
         create_pdf_report (interpretFrame (coerceColumns rf)) output_file = Except.ok rres ∧
         fs' = setPairs fs output_file (MFile.pdf rres.pages) ∧
         (runMain fs).2 = [Event.readCSV data_path, Event.writePDF output_file])
    ∧ (∀ f col e, f col = Except.error e → coerceColumn f col = col)
    ∧ (∀ f col v, f col = Except.ok v → coerceColumn f col = v) := by
  refine ⟨?_, ?_, ?_⟩
  · intro fs fs' h
    obtain ⟨rf, rr, hl, hc, hfs, htr⟩ := runMain_decomp h
    obtain ⟨dfE, w, p2, p3, dfB, p4, p5, tbl, p6, st, -, -, -, -, -, -, hrr⟩ :=
      create_pdf_report_decomp hc
    have hret : rr.returned = output_file := by rw [hrr]
    rw [hret] at hfs htr
    exact ⟨rf, rr, hl, hc, hfs, htr⟩
  · intro f col e hf
    unfold coerceColumn
    rw [hf]
  · intro f col v hf
    unfold coerceColumn
    rw [hf]

/-- Witness for C4: a concrete run, a failing coercion left in place, and a
successful coercion applied. -/
theorem C4_entry_point_witness :
    (runMain exFS).1 = Except.ok exFSFinal ∧
    (runMain exFS).2 = [Event.readCSV data_path, Event.writePDF output_file] ∧
    coerceColumn (fun _ => Except.error "TypeError") [Cell.str "x"] = [Cell.str "x"] ∧
    coerceColumn pdToNumericIgnore [Cell.str "7"] = [Cell.num 7] := by
  have h : (runMain exFS).1 = Except.ok exFSFinal := by with_unfolding_all rfl
  have cl := C4_entry_point
  obtain ⟨rf, rr, -, -, -, htr⟩ := cl.1 exFS exFSFinal h
  refine ⟨h, htr, cl.2.1 _ _ "TypeError" rfl, cl.2.2 _ _ [Cell.num 7] ?_⟩
  with_unfolding_all rfl

/-- C7: a successful run reads the input CSV once, writes the output PDF
once, touches no other file, and never modifies the input CSV. -/
theorem C7_persistence (fs fs' : FS) (h : (runMain fs).1 = Except.ok fs') :
    (runMain fs).2 = [Event.readCSV data_path, Event.writePDF output_file] ∧
    lookupCol fs' data_path = lookupCol fs data_path ∧
    (∀ p, p ≠ output_file → lookupCol fs' p = lookupCol fs p) ∧
    data_path ≠ output_file := by
  obtain ⟨rf, rr, hl, hc, hfs, htr⟩ := runMain_decomp h
  obtain ⟨dfE, w, p2, p3, dfB, p4, p5, tbl, p6, st, -, -, -, -, -, -, hrr⟩ :=
    create_pdf_report_decomp hc
  have hret : rr.returned = output_file := by rw [hrr]
  rw [hret] at hfs htr
  have hdo : data_path ≠ output_file := by decide
  refine ⟨htr, ?_, ?_, hdo⟩
  · rw [hfs]
    exact lookupCol_setPairs_ne fs hdo _
  · intro p hp
    rw [hfs]
    exact lookupCol_setPairs_ne fs hp _

/-- Witness for C7 at a concrete file system. -/
theorem C7_persistence_witness :
    (runMain exFS).1 = Except.ok exFSFinal ∧
    (runMain exFS).2 = [Event.readCSV data_path, Event.writePDF output_file] ∧
    lookupCol exFSFinal data_path = lookupCol exFS data_path := by
  have h : (runMain exFS).1 = Except.ok exFSFinal := by with_unfolding_all rfl
  have cl := C7_persistence exFS exFSFinal h
  exact ⟨h, cl.1, cl.2.1⟩

/-- C9: the `health_need` derivation divides by `max - min` with no guard, so
the division-by-zero branch is reached whenever every row has the same
`health_burden_score` (first conjunct, at an explicit constant-score frame);
and when `max > min`, every derived `health_need` value lies in `[0, 1]`
(second conjunct). -/
theorem C9_health_need_bounds :
    (enrichMetrics exDFConst = Except.ok (exConstEnriched, []) ∧
     exDFConst.hasCol "health_need" = false ∧
     exDFConst.getCol "health_burden_score" = some [3, 3] ∧
     colMax [(3 : ℚ), 3] - colMin [(3 : ℚ), 3] = 0 ∧
     exConstEnriched.hasCol "health_need" = true)
    ∧ (∀ df df' w, enrichMetrics df = .ok (df', w) →
        df.hasCol "health_need" = false →
        ∀ hb, df'.getCol "health_burden_score" = some hb →
        colMin hb < colMax hb →
        ∀ hn, df'.getCol "health_need" = some hn →
        ∀ x ∈ hn, 0 ≤ x ∧ x ≤ 1) := by
  constructor
  · refine ⟨by with_unfolding_all rfl, rfl, rfl, by with_unfolding_all rfl, rfl⟩
  · intro df df' w h habs hb hhb hlt hn hhn
    obtain ⟨df3, h3, h5, -⟩ := enrichMetrics_decomp h
    have ehbs : df'.getCol "health_burden_score" = df3.getCol "health_burden_score" := by
      rw [ensurePopGap_getCol_ne h5 (by decide), ensureHealthNeed_getCol_ne _ (by decide)]
    have ehn : df'.getCol "health_need" = (ensureHealthNeed df3).getCol "health_need" :=
      ensurePopGap_getCol_ne h5 (by decide)
    have e31 : df3.getCol "health_need" = df.getCol "health_need" := by
      rw [ensureClinicsPer100k_getCol_ne h3 (by decide),
        ensurePopulation_getCol_ne _ (by decide), ensureHealthBurden_getCol_ne _ (by decide)]
    have habs3 : df3.hasCol "health_need" = false := by
      rw [hasCol_congr e31]; exact habs
    have hb3 : df3.getCol "health_burden_score" = some hb := by rw [← ehbs]; exact hhb
    have hhbs3 : df3.hasCol "health_burden_score" = true :=
      hasCol_iff_getCol_eq_some.2 ⟨hb, hb3⟩
    obtain ⟨h0, hh0, hres⟩ := ensureHealthNeed_spec habs3 hhbs3
    have hbe : h0 = hb := by
      rw [hh0] at hb3
      exact Option.some.inj hb3
    subst hbe
    rw [ehn, hres] at hhn
    have hhn' : hn = h0.map (fun x => (x - colMin h0) / (colMax h0 - colMin h0)) :=
      (Option.some.inj hhn).symm
    subst hhn'
    intro x hx
    obtain ⟨y, hy, hyx⟩ := List.mem_map.1 hx
    have hden : (0 : ℚ) < colMax h0 - colMin h0 := sub_pos.2 hlt
    constructor
    · rw [← hyx]
      exact div_nonneg (sub_nonneg.2 (colMin_le_of_mem hy)) (le_of_lt hden)
    · rw [← hyx]
      exact (div_le_one hden).2 (sub_le_sub_right (le_colMax_of_mem hy) _)

/-- Witness for C9's bounded part at a frame with distinct scores. -/
theorem C9_health_need_bounds_witness :
    enrichMetrics exDF = Except.ok (exEnriched, []) ∧
    exDF.hasCol "health_need" = false ∧
    exEnriched.getCol "health_burden_score" = some [1, 2, 3, 4, 5] ∧
    colMin [(1 : ℚ), 2, 3, 4, 5] < colMax [(1 : ℚ), 2, 3, 4, 5] ∧
    exEnriched.getCol "health_need" = some [0, 1/4, 1/2, 3/4, 1] ∧
    (0 ≤ (1 : ℚ)/4 ∧ (1 : ℚ)/4 ≤ 1) := by
  have h : enrichMetrics exDF = Except.ok (exEnriched, []) := by with_unfolding_all rfl
  have h1 : exEnriched.getCol "health_burden_score" = some [1, 2, 3, 4, 5] := by
    with_unfolding_all rfl
  have h2 : colMin [(1 : ℚ), 2, 3, 4, 5] < colMax [(1 : ℚ), 2, 3, 4, 5] := by
    have e1 : colMin [(1 : ℚ), 2, 3, 4, 5] = 1 := by with_unfolding_all rfl
    have e2 : colMax [(1 : ℚ), 2, 3, 4, 5] = 5 := by with_unfolding_all rfl
    rw [e1, e2]
    norm_num
  have h3 : exEnriched.getCol "health_need" = some [0, 1/4, 1/2, 3/4, 1] := by
    with_unfolding_all rfl
  refine ⟨h, rfl, h1, h2, h3, ?_⟩
  refine C9_health_need_bounds.2 exDF exEnriched [] h rfl [1, 2, 3, 4, 5] h1 h2
    [0, 1/4, 1/2, 3/4, 1] h3 (1/4) ?_
  norm_num

/-- C10 counterexample: a county row with `clinic_count = 0` and
`population = 0` divides `0/0`, which floats to NaN; NaN is not among the
replaced values, and NaN is not finite — so not every derived county-level
`clinics_per_100k` value is finite. -/
theorem C10_finiteness_counterexample :
    deriveClinicsF [FVal.fin 0] [FVal.fin 0] = [FVal.nan] ∧
    FVal.nan.isFinite = false := by
  constructor
  · with_unfolding_all rfl
  · rfl

/-- C10 (amended): every positive or negative infinity arising from the
county-level division is replaced by 0, so no derived county-level
`clinics_per_100k` value is an infinity (a `0/0` row still yields NaN, which
is not replaced and not finite); the state-level recomputation has no such
replacement, and a state with positive clinic count and zero total population
produces `+inf` there. -/
theorem C10_no_infinities :
    (∀ cc pop : List FVal, ∀ v ∈ deriveClinicsF cc pop,
       v ≠ FVal.inf ∧ v ≠ FVal.ninf)
    ∧ stateClinicsF [FVal.fin 1] [FVal.fin 0] = FVal.inf := by
  constructor
  · intro cc pop v hv
    exact replaceInf_no_inf _ v hv
  · with_unfolding_all rfl

/-- Witness for C10's universal part at a concrete division with a zero
population. -/
theorem C10_no_infinities_witness :
    FVal.fin 0 ∈ deriveClinicsF [FVal.fin 1] [FVal.fin 0] ∧
    (FVal.fin 0 ≠ FVal.inf ∧ FVal.fin 0 ≠ FVal.ninf) := by
  have hm : FVal.fin 0 ∈ deriveClinicsF [FVal.fin 1] [FVal.fin 0] := by
    have : deriveClinicsF [FVal.fin 1] [FVal.fin 0] = [FVal.fin 0] := by
      with_unfolding_all rfl
    rw [this]
    exact List.mem_singleton.2 rfl
  exact ⟨hm, C10_no_infinities.1 [FVal.fin 1] [FVal.fin 0] (FVal.fin 0) hm⟩

/-- C6: the ranked tables are sorted in descending order of their metric and
truncated to their fixed limits: the underserved-counties table holds the 20
rows with the largest `pop_adjusted_gap` (it is a sorted prefix of a
permutation of the column that dominates the rest), and the state-summary
table holds the 15 states with the largest `clinics_per_100k`, computed from
state-level sums of `clinic_count` and `population`. -/
theorem C6_ranked_tables (df : DataFrame) (out : String) (r : ReportResult)
    (h : create_pdf_report df out = .ok r) :
    (∀ t, r.underserved = some t →
       ∃ gap rest,
         r.df.getCol "pop_adjusted_gap" = some gap ∧
         t.length = min 20 gap.length ∧
         List.Sorted (fun a b => b.pop_adjusted_gap ≤ a.pop_adjusted_gap) t ∧
         (t.map URow.pop_adjusted_gap ++ rest).Perm gap ∧
         (∀ x ∈ t.map URow.pop_adjusted_gap, ∀ y ∈ rest, y ≤ x))
    ∧ (∃ rest,
         List.Sorted (fun a b => b.clinics_per_100k ≤ a.clinics_per_100k) r.states ∧
         r.states.length = min 15 (stateStats r.df).length ∧
         (r.states ++ rest).Perm (stateStats r.df) ∧
         (∀ a ∈ r.states, ∀ b ∈ rest, b.clinics_per_100k ≤ a.clinics_per_100k))
    ∧ (∀ s ∈ stateStats r.df,
         s.clinics_per_100k =
           groupSum ((r.df.getStr "state_full").getD [])
             ((r.df.getCol "clinic_count").getD []) s.state_full /
           groupSum ((r.df.getStr "state_full").getD [])
             ((r.df.getCol "population").getD []) s.state_full * 100000) := by
  obtain ⟨dfE, w, p2, p3, dfB, p4, p5, tbl, p6, st, hE, h2, h3, h4, h5, h6, hr⟩ :=
    create_pdf_report_decomp h
  obtain ⟨-, -, -, -, hhbsE⟩ := execSummaryPage_ok h2
  obtain ⟨q, hq, hdfB, -⟩ := boxplotsPage_ok h4
  have hrdf : r.df = dfB := by rw [hr]
  have hgapB : dfB.hasCol "pop_adjusted_gap" = true := by
    rw [hdfB, hasCol_congr (getCol_setStr dfE _ _ _)]
    exact enrichMetrics_gap_of_hbs hE hhbsE
  obtain ⟨-, htbl⟩ := rankingsPage_ok_of_gap hgapB h5
  obtain ⟨-, hst⟩ := stateSummaryPage_ok h6
  have hu : r.underserved = some (topUnderserved dfB) := by rw [hr]; exact htbl
  have hstates : r.states = topStates (stateStats dfB) := by rw [hr]; exact hst
  refine ⟨?_, ?_, ?_⟩
  · intro t ht
    have ht' : t = topUnderserved dfB := (Option.some.inj (hu.symm.trans ht)).symm
    obtain ⟨gap, hgap⟩ := hasCol_iff_getCol_eq_some.1 hgapB
    have htop : topUnderserved dfB = (nlargestIdx 20 gap).map (fun i =>
        { county_full := ((dfB.getStr "county_full").getD []).getD i ""
          state_full := ((dfB.getStr "state_full").getD []).getD i ""
          pop_adjusted_gap := gap.getD i 0
          health_burden_score := ((dfB.getCol "health_burden_score").getD []).getD i 0
          clinic_count := ((dfB.getCol "clinic_count").getD []).getD i 0
          population := ((dfB.getCol "population").getD []).getD i 0 }) := by
      simp only [topUnderserved, hgap, Option.getD_some]
    haveI : IsTotal Nat (fun i j => gap.getD j 0 ≤ gap.getD i 0) :=
      ⟨fun a b => le_total _ _⟩
    haveI : IsTrans Nat (fun i j => gap.getD j 0 ≤ gap.getD i 0) :=
      ⟨fun a b c hab hbc => le_trans hbc hab⟩
    obtain ⟨hSorted, hPerm, hCross⟩ :=
      insertionSort_take_drop (fun i j : Nat => gap.getD j 0 ≤ gap.getD i 0)
        (List.range gap.length) 20
    refine ⟨gap,
      (((List.range gap.length).insertionSort
          (fun i j => gap.getD j 0 ≤ gap.getD i 0)).drop 20).map (fun i => gap.getD i 0),
      by rw [hrdf]; exact hgap, ?_, ?_, ?_, ?_⟩
    · rw [ht', htop, List.length_map]
      simp only [nlargestIdx, sortIdxDesc, List.length_take]
      congr 1
      rw [(List.perm_insertionSort _ _).length_eq, List.length_range]
    · rw [ht', htop]
      simp only [nlargestIdx, sortIdxDesc]
      exact List.Pairwise.map _ (fun a b hab => hab) hSorted
    · rw [ht', htop]
      simp only [nlargestIdx, sortIdxDesc, List.map_map]
      rw [show (URow.pop_adjusted_gap ∘ fun i =>
          ({ county_full := ((dfB.getStr "county_full").getD []).getD i ""
             state_full := ((dfB.getStr "state_full").getD []).getD i ""
             pop_adjusted_gap := gap.getD i 0
             health_burden_score := ((dfB.getCol "health_burden_score").getD []).getD i 0
             clinic_count := ((dfB.getCol "clinic_count").getD []).getD i 0
             population := ((dfB.getCol "population").getD []).getD i 0 } : URow)) =
          (fun i => gap.getD i 0) from rfl]
      rw [← List.map_append]
      have hp := hPerm.map (fun i => gap.getD i 0)
      rw [map_getD_range] at hp
      exact hp
    · rw [ht', htop]
      simp only [nlargestIdx, sortIdxDesc, List.map_map]
      intro x hx y hy
      obtain ⟨i, hi, hix⟩ := List.mem_map.1 hx
      obtain ⟨j, hj, hjy⟩ := List.mem_map.1 hy
      rw [← hix, ← hjy]
      exact hCross i hi j hj
  · haveI : IsTotal SRow (fun a b => b.clinics_per_100k ≤ a.clinics_per_100k) :=
      ⟨fun a b => le_total _ _⟩
    haveI : IsTrans SRow (fun a b => b.clinics_per_100k ≤ a.clinics_per_100k) :=
      ⟨fun a b c hab hbc => le_trans hbc hab⟩
    obtain ⟨hS2, hP2, hC2⟩ :=
      insertionSort_take_drop (fun a b : SRow => b.clinics_per_100k ≤ a.clinics_per_100k)
        (stateStats dfB) 15
    refine ⟨((stateStats dfB).insertionSort
        (fun a b => b.clinics_per_100k ≤ a.clinics_per_100k)).drop 15, ?_, ?_, ?_, ?_⟩
    · rw [hstates]
      simp only [topStates]
      exact hS2
    · rw [hstates, hrdf]
      simp only [topStates, List.length_take]
      congr 1
      rw [(List.perm_insertionSort _ _).length_eq]
    · rw [hstates, hrdf]
      simp only [topStates]
      exact hP2
    · rw [hstates]
      simp only [topStates]
      exact hC2
  · intro s hs
    rw [hrdf] at hs ⊢
    simp only [stateStats, List.mem_map] at hs
    obtain ⟨k, hk, rfl⟩ := hs
    rfl

/-- Witness for C6: the concrete tables are sorted in descending metric
order. -/
theorem C6_ranked_tables_witness :
    create_pdf_report exDF "out.pdf" = Except.ok exReport ∧
    (∃ t, exReport.underserved = some t ∧
       List.Sorted (fun a b => b.pop_adjusted_gap ≤ a.pop_adjusted_gap) t) ∧
    List.Sorted (fun a b => b.clinics_per_100k ≤ a.clinics_per_100k) exReport.states := by
  have h : create_pdf_report exDF "out.pdf" = Except.ok exReport := by
    with_unfolding_all rfl
  have cl := C6_ranked_tables exDF "out.pdf" exReport h
  obtain ⟨gap, rest, -, -, hsort, -, -⟩ := cl.1 _ (rfl : exReport.underserved = some _)
  obtain ⟨rest2, hsort2, -, -, -⟩ := cl.2.1
  exact ⟨h, ⟨_, rfl, hsort⟩, hsort2⟩

end Report
